import Mathlib

/-!
Verification of the data loading, normalization, filter and aggregation
pipeline of the air-crash dashboard (src/app.py).

The shallow embedding below translates the pandas operations of app.py into
pure Lean functions over lists of rows.  A raw CSV row becomes a RawRow whose
fields are Option-valued (None stands for a missing cell / NaN); the table
returned by read_csv becomes a RawTable that also records which of the three
required columns are present.  Each pandas primitive used by the script is
embedded at the granularity the script uses it:

- Series.map applied to a dict sends every value that is not a key of the
  dict to NaN; month_map below therefore returns none on every string other
  than the twelve full English month names (app.py line 46).
- Series.fillna 1 on the Day column becomes Option.getD 1 (line 47).
- pd.to_datetime on the Year/Month/Day columns with coerce becomes
  to_datetime, which yields none when a component is missing or the triple
  is not a valid calendar date (line 48); dropna on Date then drops those
  rows (line 49), which is the filterMap in normalize.
- Year and Month are re-derived from the constructed Date (lines 50 and 51).
- The boolean-mask filters of lines 71 to 75 become List.filter.
- groupby(k).size() lists the distinct keys in ascending order with their
  multiplicities (lines 109 and 148): groupby_size.
- value_counts() drops NaN, counts the remaining values and sorts the
  (value, count) pairs descending by count (line 123).  pandas implements
  the descending sort by reversing the array, taking a stable ascending
  argsort and reversing the resulting indexer, so pairs with equal counts
  stay in order of first appearance; value_counts below is the equivalent
  stable descending insertion sort.
- Series.sum() treats NaN as 0 (line 88): Option.getD 0 before summing.
- Series.nunique() counts distinct non-null values (lines 91 and 94).
- seaborn regplot drops every observation in which either coordinate is
  missing before fitting (line 140): regplot_pairs.
-/

namespace AirCrashes

/-- One raw CSV row as read_csv delivers it: every cell may be missing.
The fields name the columns Year, Month, Day, Country/Region, Operator,
Aircraft Manufacturer, Fatalities (air) and Ground of the dataset. -/
structure RawRow where
  year : Option Int
  month : Option String
  day : Option Int
  country : Option String
  operator : Option String
  manufacturer : Option String
  fatalitiesAir : Option Nat
  ground : Option Nat
deriving DecidableEq

/-- The raw table produced by read_csv: the row list plus which of the three
required columns exist (app.py line 41 tests their presence). -/
structure RawTable where
  hasYear : Bool
  hasMonth : Bool
  hasDay : Bool
  rows : List RawRow
deriving DecidableEq

/-- A calendar date as pd.to_datetime constructs it. -/
structure Date where
  year : Int
  month : Nat
  day : Nat
deriving DecidableEq

/-- A normalized record of the Dataset: Year and Month are the values
re-derived from Date (app.py lines 50 and 51), Day is the value after
fillna, and the remaining columns are untouched. -/
structure Record where
  date : Date
  year : Int
  month : Nat
  day : Int
  country : Option String
  operator : Option String
  manufacturer : Option String
  fatalitiesAir : Option Nat
  ground : Option Nat
deriving DecidableEq

/-- The month dictionary of app.py lines 42 to 45, applied with Series.map:
a value that is not a key of the dict becomes NaN, here none. -/
def month_map (s : String) : Option Nat :=
  if s = "January" then some 1
  else if s = "February" then some 2
  else if s = "March" then some 3
  else if s = "April" then some 4
  else if s = "May" then some 5
  else if s = "June" then some 6
  else if s = "July" then some 7
  else if s = "August" then some 8
  else if s = "September" then some 9
  else if s = "October" then some 10
  else if s = "November" then some 11
  else if s = "December" then some 12
  else none

/-- Gregorian leap year, as the datetime assembly uses it. -/
def isLeapYear (y : Int) : Bool :=
  (y % 4 == 0 && y % 100 != 0) || y % 400 == 0

/-- Number of days of month m of year y. -/
def daysInMonth (y : Int) (m : Nat) : Nat :=
  if m = 2 then (if isLeapYear y then 29 else 28)
  else if m == 4 || m == 6 || m == 9 || m == 11 then 30
  else 31

/-- Row-wise embedding of pd.to_datetime over the Year, Month and Day
columns with coerce (app.py line 48): a missing component or a triple that
is not a valid calendar date yields none (NaT). -/
def to_datetime (y : Option Int) (m : Option Nat) (d : Option Int) : Option Date :=
  match m with
  | none => none
  | some m =>
    match y with
    | none => none
    | some y =>
      match d with
      | none => none
      | some d =>
        if 1 ≤ m ∧ m ≤ 12 ∧ 1 ≤ d ∧ d ≤ (daysInMonth y m : Int) then
          some ⟨y, m, d.toNat⟩
        else none

/-- Normalization of one raw row (app.py lines 46 to 51): map the month
name, default a missing day to 1, build the date, and on success re-derive
Year and Month from the date; none when the date cannot be built (the row
that dropna on Date removes). -/
def normRow (r : RawRow) : Option Record :=
  (to_datetime r.year (r.month.bind month_map) (some (r.day.getD 1))).map fun dt =>
    { date := dt, year := dt.year, month := dt.month, day := r.day.getD 1,
      country := r.country, operator := r.operator,
      manufacturer := r.manufacturer, fatalitiesAir := r.fatalitiesAir,
      ground := r.ground }

/-- The normalization pass over the whole table: rows whose date cannot be
constructed are dropped (app.py lines 48 and 49). -/
def normalize (rows : List RawRow) : List Record :=
  rows.filterMap normRow

/-- The schema test of app.py line 41: all of Year, Month, Day present. -/
def schemaOk (t : RawTable) : Bool :=
  t.hasYear && t.hasMonth && t.hasDay

/-- What load_data returns: either the normalized records (the if branch of
app.py lines 41 to 51) or the raw table unchanged (the else branch of lines
52 to 54, which only shows an error and then still returns df). -/
inductive LoadedTable where
  | norm (records : List Record)
  | raw (table : RawTable)
deriving DecidableEq

/-- The observable outcome of load_data: whether st.error was invoked, and
the dataframe the function returns (app.py lines 36 to 54). -/
structure LoadResult where
  errorSurfaced : Bool
  df : LoadedTable
deriving DecidableEq

/-- app.py lines 36 to 54: when the three required columns exist the table
is normalized; otherwise an error is surfaced and the raw table is
returned as-is (the final return df runs in both branches). -/
def load_data (t : RawTable) : LoadResult :=
  if schemaOk t then ⟨false, LoadedTable.norm (normalize t.rows)⟩
  else ⟨true, LoadedTable.raw t⟩

/-- The sidebar selection: year range, country and airline, where the
string All is the no-filter sentinel (app.py lines 62 to 68). -/
structure FilterSelection where
  yearLow : Int
  yearHigh : Int
  country : String
  airline : String
deriving DecidableEq

/-- The conjunction of the three filter conditions of app.py lines 71 to
75, as one predicate: year inside the inclusive range, and exact equality
on Country/Region and Operator unless the sentinel All is selected.  A null
country or operator never equals a selected string, as in pandas. -/
def rowPasses (s : FilterSelection) (r : Record) : Bool :=
  (decide (s.yearLow ≤ r.year) && decide (r.year ≤ s.yearHigh))
    && (s.country == "All" || r.country == some s.country)
    && (s.airline == "All" || r.operator == some s.airline)

/-- app.py lines 71 to 75: the year-range mask, then the country mask when
the country is not All, then the airline mask when the airline is not All. -/
def filtered_df (df : List Record) (s : FilterSelection) : List Record :=
  let f1 := df.filter fun r => decide (s.yearLow ≤ r.year) && decide (r.year ≤ s.yearHigh)
  let f2 := if s.country = "All" then f1
    else f1.filter fun r => r.country == some s.country
  if s.airline = "All" then f2
  else f2.filter fun r => r.operator == some s.airline

/-- The distinct values of a list in order of first appearance, as the
pandas hash table enumerates them. -/
def uniqueKeys {α : Type} [DecidableEq α] : List α → List α
  | [] => []
  | k :: ks => k :: (uniqueKeys ks).filter fun x => x != k

/-- groupby(key).size(): the distinct keys in ascending order, each with
its multiplicity; keys with no occurrence are absent (app.py lines 109 and
148 rely on this shape). -/
def groupby_size {α : Type} [DecidableEq α] [LinearOrder α] (ks : List α) : List (α × Nat) :=
  (List.insertionSort (fun a b => a ≤ b) (uniqueKeys ks)).map fun k => (k, ks.count k)

/-- The monthly pattern of app.py line 148: groupby Month, size. -/
def monthly (df : List Record) : List (Nat × Nat) :=
  groupby_size (df.map fun r => r.month)

/-- The yearly trend of app.py line 109: groupby Year, size. -/
def yearly_trend (df : List Record) : List (Int × Nat) :=
  groupby_size (df.map fun r => r.year)

/-- Descending-by-count order on (value, count) pairs. -/
def countGe {α : Type} (a b : α × Nat) : Prop := b.2 ≤ a.2

instance {α : Type} : DecidableRel (α := α × Nat) countGe := fun a b =>
  inferInstanceAs (Decidable (b.2 ≤ a.2))

instance {α : Type} : IsTotal (α × Nat) countGe :=
  ⟨fun a b => Nat.le_total b.2 a.2⟩

instance {α : Type} : IsTrans (α × Nat) countGe :=
  ⟨fun _ _ _ hab hbc => Nat.le_trans hbc hab⟩

/-- The counts the value_counts hash table produces, keyed in order of
first appearance. -/
def countBy (ks : List String) : List (String × Nat) :=
  (uniqueKeys ks).map fun k => (k, ks.count k)

/-- Series.value_counts() (app.py line 123): count the non-null values and
sort descending by count.  pandas sorts descending by reversing the array,
taking a stable ascending argsort and reversing the indexer, so pairs with
equal counts stay in first-appearance order; the stable descending
insertion sort below produces exactly that order. -/
def value_counts (ks : List String) : List (String × Nat) :=
  List.insertionSort countGe (countBy ks)

/-- The non-null Country/Region values, in order (value_counts drops NaN). -/
def countries (df : List Record) : List String :=
  df.filterMap fun r => r.country

/-- value_counts on Country/Region followed by head(n). -/
def top_countries_n (df : List Record) (n : Nat) : List (String × Nat) :=
  (value_counts (countries df)).take n

/-- app.py line 123: the ten countries with the most crashes. -/
def top_countries (df : List Record) : List (String × Nat) :=
  top_countries_n df 10

/-- The observation pairs seaborn regplot actually fits (app.py line 140):
one (air, ground) pair per record, records with either coordinate missing
dropped, never coerced to 0. -/
def regplot_pairs (df : List Record) : List (Nat × Nat) :=
  df.filterMap fun r =>
    match r.fatalitiesAir, r.ground with
    | some a, some g => some (a, g)
    | _, _ => none

/-- Series.nunique(): the number of distinct non-null values. -/
def nunique (l : List (Option String)) : Nat :=
  (uniqueKeys (l.filterMap id)).length

/-- The four metric cards of app.py lines 82 to 94, computed from one
record list (the script passes filtered_df): crash count, the sum of
Fatalities (air) with NaN as 0, distinct countries, distinct operators. -/
structure MetricCards where
  totalCrashes : Nat
  totalFatalities : Nat
  countriesAffected : Nat
  airlinesInvolved : Nat
deriving DecidableEq

def metric_cards (fd : List Record) : MetricCards :=
  { totalCrashes := fd.length,
    totalFatalities := (fd.map fun r => r.fatalitiesAir.getD 0).sum,
    countriesAffected := nunique (fd.map fun r => r.country),
    airlinesInvolved := nunique (fd.map fun r => r.operator) }

/-- The four chart aggregations of app.py lines 106 to 155, computed from
one record list (the script passes df, the full dataset). -/
structure ChartData where
  yearlyTrend : List (Int × Nat)
  topCountries : List (String × Nat)
  fatalityPairs : List (Nat × Nat)
  monthlyPattern : List (Nat × Nat)
deriving DecidableEq

def charts (df : List Record) : ChartData :=
  { yearlyTrend := yearly_trend df, topCountries := top_countries df,
    fatalityPairs := regplot_pairs df, monthlyPattern := monthly df }

/-- Everything one interaction renders from data: the metric cards are
computed from filtered_df (app.py lines 82 to 94), the charts from df, the
full dataset (lines 109, 123, 140, 148). -/
structure Dashboard where
  metrics : MetricCards
  chartData : ChartData
deriving DecidableEq

/-- One recomputation pass of the script for a loaded dataset and a sidebar
selection: filter, then metric cards over the filtered subset, charts over
the full dataset. -/
def render (df : List Record) (s : FilterSelection) : Dashboard :=
  { metrics := metric_cards (filtered_df df s), chartData := charts df }

/-- Replacing the Ground field of a record, leaving the rest unchanged;
used to state that an output never reads Ground. -/
def set_ground (f : Option Nat → Option Nat) (r : Record) : Record :=
  { r with ground := f r.ground }

/-! Concrete inputs used by counterexamples and witnesses. -/

/-- A well-formed raw row. -/
def rawRow0 : RawRow :=
  ⟨some 1950, some "May", some 2, some "USA", some "PanAm", none, some 3, some 0⟩

/-- A raw table with Year and Month columns but no Day column. -/
def tableMissingDay : RawTable :=
  ⟨true, true, false, [rawRow0]⟩

/-- A raw row whose Month cell is the numeral string 5: it parses as an
integer between 1 and 12 but is not a key of the month dict. -/
def rowNumericMonth : RawRow :=
  ⟨some 1990, some "5", some 4, none, none, none, none, none⟩

/-- A raw row for February 30 of a leap year: every component present, but
no such calendar date exists. -/
def rowFeb30 : RawRow :=
  ⟨some 2020, some "February", some 30, none, none, none, none, none⟩

/-- A raw row with a missing Day cell and a valid Year and Month. -/
def rowNoDay : RawRow :=
  ⟨some 1960, some "March", none, none, none, none, some 5, none⟩

/-- A normalized record over a given country, on a fixed valid date. -/
def mkRec (c : String) : Record :=
  { date := ⟨2000, 1, 1⟩, year := 2000, month := 1, day := 1,
    country := some c, operator := none, manufacturer := none,
    fatalitiesAir := none, ground := none }

/-- Records realizing the counts A:5, B:5, C:3, D:1 with A encountered
before B. -/
def dsTies : List Record :=
  (["A", "A", "A", "A", "A", "B", "B", "B", "B", "B", "C", "C", "C", "D"].map mkRec)

/-- A normalized record with given fatality fields, on a fixed valid
date. -/
def mkPair (a g : Option Nat) : Record :=
  { date := ⟨2000, 1, 1⟩, year := 2000, month := 1, day := 1,
    country := none, operator := none, manufacturer := none,
    fatalitiesAir := a, ground := g }

/-- Ten records of which exactly two have a null Ground value. -/
def dsNulls : List Record :=
  [mkPair (some 1) (some 2), mkPair (some 3) none, mkPair (some 0) (some 0),
   mkPair (some 7) (some 1), mkPair (some 2) none, mkPair (some 5) (some 9),
   mkPair (some 4) (some 4), mkPair (some 6) (some 0), mkPair (some 8) (some 2),
   mkPair (some 9) (some 3)]

/-- A selection whose year range covers dsTies. -/
def selWide : FilterSelection := ⟨1900, 2100, "All", "All"⟩

/-- A selection whose year range excludes every record of dsTies. -/
def selNone : FilterSelection := ⟨2500, 2600, "All", "All"⟩

/-! Theorems. -/

/-- Helper: the three cascaded masks of app.py lines 71 to 75 equal one
filter by the conjoined predicate. -/
theorem filtered_df_eq_filter (df : List Record) (s : FilterSelection) :
    filtered_df df s = df.filter (rowPasses s) := by
  by_cases hc : s.country = "All" <;> by_cases ha : s.airline = "All" <;>
    simp [filtered_df, hc, ha, List.filter_filter] <;>
    (apply List.filter_congr;
     intro r _;
     rw [Bool.eq_iff_iff];
     simp [rowPasses, hc, ha, and_assoc];
     try tauto)

/-- Claim C5: filtered_df returns exactly the records satisfying the year
range and, unless the sentinel All is selected, exact case-sensitive
equality on Country/Region and Operator, preserving dataset order (it is a
filter, hence a sublist); with country and airline both All it is exactly
the year-range subset. -/
theorem filtered_df_spec :
    (∀ (df : List Record) (s : FilterSelection),
        filtered_df df s = df.filter (rowPasses s) ∧
        (filtered_df df s).Sublist df ∧
        ∀ r : Record, r ∈ filtered_df df s ↔ r ∈ df ∧ rowPasses s r = true) ∧
    (∀ (df : List Record) (lo hi : Int),
        filtered_df df ⟨lo, hi, "All", "All"⟩ =
          df.filter fun r => decide (lo ≤ r.year) && decide (r.year ≤ hi)) := by
  constructor
  · intro df s
    refine ⟨filtered_df_eq_filter df s, ?_, ?_⟩
    · rw [filtered_df_eq_filter]
      exact List.filter_sublist df
    · intro r
      rw [filtered_df_eq_filter]
      exact List.mem_filter
  · intro df lo hi
    rw [filtered_df_eq_filter]
    apply List.filter_congr
    intro r _
    rw [Bool.eq_iff_iff]
    simp [rowPasses]

/-- Claim C1 (amended): when one of Year, Month, Day is missing, load_data
surfaces the diagnostic and skips normalization, but it does not fail: the
raw table itself is returned as the resulting dataframe. -/
theorem load_data_schema_failure (t : RawTable) (h : schemaOk t = false) :
    (load_data t).errorSurfaced = true ∧ (load_data t).df = LoadedTable.raw t := by
  simp [load_data, h]

/-- Witness for load_data_schema_failure at the table missing its Day
column. -/
theorem load_data_schema_failure_witness :
    (load_data tableMissingDay).errorSurfaced = true ∧
      (load_data tableMissingDay).df = LoadedTable.raw tableMissingDay :=
  load_data_schema_failure tableMissingDay (by decide)

/-- Claim C1 counterexample: on the concrete table missing the Day column,
load_data still produces a dataframe, namely the raw table with its row
intact; the load attempt is not fatal and the unnormalized data is handed
to the rest of the pipeline. -/
theorem load_data_missing_day_cex :
    (load_data tableMissingDay).errorSurfaced = true ∧
      (load_data tableMissingDay).df = LoadedTable.raw tableMissingDay ∧
      tableMissingDay.rows.length = 1 := by decide

/-- Claim C2 (amended): a raw month value that is not a key of the month
dict is mapped to null by Series.map, so the date of its record cannot be
constructed and the record is dropped, whether or not the value parses as
an integer between 1 and 12. -/
theorem month_unmapped_dropped (row : RawRow) (name : String)
    (hm : row.month = some name) (hmap : month_map name = none) :
    normRow row = none := by
  simp [normRow, hm, hmap, to_datetime]

/-- Witness for month_unmapped_dropped at the row whose month cell is the
numeral string 5. -/
theorem month_unmapped_dropped_witness : normRow rowNumericMonth = none :=
  month_unmapped_dropped rowNumericMonth "5" rfl rfl

/-- Claim C2 counterexample: the month value 5 parses as the integer 5,
which lies between 1 and 12, yet normalization drops the record instead of
keeping it with numeric month 5. -/
theorem numeric_month_dropped_cex :
    month_map "5" = none ∧ normalize [rowNumericMonth] = [] :=
  ⟨rfl, rfl⟩

set_option maxHeartbeats 1000000 in
/-- The month dict only maps onto 1..12. -/
theorem month_map_range (s : String) (m : Nat) (h : month_map s = some m) :
    1 ≤ m ∧ m ≤ 12 := by
  unfold month_map at h
  split_ifs at h <;> injection h with h2 <;> omega

/-- Every month of every year has at least one day. -/
theorem one_le_daysInMonth (y : Int) (m : Nat) : 1 ≤ daysInMonth y m := by
  unfold daysInMonth
  split_ifs <;> omega

/-- Claim C4: every record retained by normalization carries a constructed
date whose year and month overwrite the Year and Month fields, and every
raw row whose (year, mapped month, defaulted day) triple does not form a
valid calendar date is dropped entirely rather than kept with a null date;
on a schema-complete table load_data returns exactly these normalized
records, and the February 30 row is dropped even though its year is a
valid leap year. -/
theorem normalize_date_invariant :
    (∀ (rows : List RawRow) (r : Record), r ∈ normalize rows →
        r.year = r.date.year ∧ r.month = r.date.month) ∧
    (∀ row : RawRow,
        to_datetime row.year (row.month.bind month_map) (some (row.day.getD 1)) = none →
        normRow row = none) ∧
    (∀ t : RawTable, schemaOk t = true →
        load_data t = ⟨false, LoadedTable.norm (normalize t.rows)⟩) ∧
    normRow rowFeb30 = none := by
  refine ⟨?_, ?_, ?_, by decide⟩
  · intro rows r hr
    rw [normalize, List.mem_filterMap] at hr
    obtain ⟨row, _, hrow⟩ := hr
    rw [normRow, Option.map_eq_some'] at hrow
    obtain ⟨dt, _, hrec⟩ := hrow
    subst hrec
    exact ⟨rfl, rfl⟩
  · intro row h
    simp [normRow, h]
  · intro t h
    simp [load_data, h]

/-- Claim C7: a raw row with a missing Day cell, a year, and a recognized
month name normalizes with day 1 and is retained in the dataset. -/
theorem day_default_retained (rows : List RawRow) (row : RawRow) (y : Int)
    (name : String) (m : Nat) (hmem : row ∈ rows) (hday : row.day = none)
    (hy : row.year = some y) (hm : row.month = some name)
    (hmap : month_map name = some m) :
    ∃ rec : Record, normRow row = some rec ∧ rec.day = 1 ∧ rec ∈ normalize rows := by
  obtain ⟨h1, h12⟩ := month_map_range name m hmap
  have hdm : (1 : Int) ≤ (daysInMonth y m : Int) := by
    exact_mod_cast one_le_daysInMonth y m
  have hdt : to_datetime (some y) (some m) (some 1) = some ⟨y, m, 1⟩ := by
    show (if 1 ≤ m ∧ m ≤ 12 ∧ (1 : Int) ≤ 1 ∧ (1 : Int) ≤ (daysInMonth y m : Int)
        then some (⟨y, m, (1 : Int).toNat⟩ : Date) else none) = some ⟨y, m, 1⟩
    rw [if_pos ⟨h1, h12, le_refl 1, hdm⟩]
    rfl
  have hb : row.month.bind month_map = some m := by simp [hm, hmap]
  have hd : row.day.getD 1 = 1 := by simp [hday]
  have hnorm : normRow row = some
      { date := ⟨y, m, 1⟩, year := y, month := m, day := 1,
        country := row.country, operator := row.operator,
        manufacturer := row.manufacturer, fatalitiesAir := row.fatalitiesAir,
        ground := row.ground } := by
    simp only [normRow, hb, hd, hy, hdt, Option.map_some']
  exact ⟨_, hnorm, rfl, List.mem_filterMap.mpr ⟨row, hmem, hnorm⟩⟩

/-- Witness for day_default_retained at the concrete row with a missing
Day and month name March. -/
theorem day_default_retained_witness :
    ∃ rec : Record, normRow rowNoDay = some rec ∧ rec.day = 1 ∧
      rec ∈ normalize [rowNoDay] :=
  day_default_retained [rowNoDay] rowNoDay 1960 "March" 3 (by decide) rfl rfl rfl rfl

/-- Membership in uniqueKeys is membership in the original list. -/
theorem mem_uniqueKeys {α : Type} [DecidableEq α] (l : List α) (a : α) :
    a ∈ uniqueKeys l ↔ a ∈ l := by
  induction l with
  | nil => simp [uniqueKeys]
  | cons k ks ih =>
    by_cases hak : a = k
    · subst hak
      simp [uniqueKeys]
    · simp [uniqueKeys, List.mem_filter, ih, hak, bne_iff_ne]

/-- uniqueKeys has no duplicates. -/
theorem nodup_uniqueKeys {α : Type} [DecidableEq α] (l : List α) :
    (uniqueKeys l).Nodup := by
  induction l with
  | nil => simp [uniqueKeys]
  | cons k ks ih =>
    rw [uniqueKeys, List.nodup_cons]
    refine ⟨?_, ih.filter _⟩
    intro hmem
    have hkk := (List.mem_filter.mp hmem).2
    simp at hkk

/-- The key column of groupby_size is strictly increasing. -/
theorem groupby_size_sorted {α : Type} [DecidableEq α] [LinearOrder α] (ks : List α) :
    (groupby_size ks).Pairwise fun a b => a.1 < b.1 := by
  have hs : (List.insertionSort (fun a b => a ≤ b) (uniqueKeys ks)).Sorted (fun a b => a ≤ b) :=
    List.sorted_insertionSort _ _
  have hnd : (List.insertionSort (fun a b => a ≤ b) (uniqueKeys ks)).Nodup :=
    ((List.perm_insertionSort _ _).nodup_iff).mpr (nodup_uniqueKeys ks)
  simp only [groupby_size, List.pairwise_map]
  exact (hs.and hnd).imp fun h => lt_of_le_of_ne h.1 h.2

/-- Membership in groupby_size: exactly the keys that occur, with their
multiplicities. -/
theorem mem_groupby_size {α : Type} [DecidableEq α] [LinearOrder α]
    (ks : List α) (a : α) (c : Nat) :
    (a, c) ∈ groupby_size ks ↔ a ∈ ks ∧ c = ks.count a := by
  simp only [groupby_size, List.mem_map]
  constructor
  · rintro ⟨k, hk, hkc⟩
    have h1 : k = a := congrArg Prod.fst hkc
    have h2 : ks.count k = c := congrArg Prod.snd hkc
    subst h1
    refine ⟨?_, h2.symm⟩
    rw [← mem_uniqueKeys]
    exact ((List.perm_insertionSort _ _).mem_iff).mp hk
  · rintro ⟨ha, rfl⟩
    refine ⟨a, ?_, rfl⟩
    rw [(List.perm_insertionSort _ _).mem_iff, mem_uniqueKeys]
    exact ha

/-- Claim C3 (amended): monthly returns one (month, count) pair per month
that occurs in the records, in strictly ascending month order with the
exact multiplicities; a month with no matching records is absent, so the
empty record list yields the empty sequence, not twelve zero entries. -/
theorem monthly_groupby_spec :
    monthly [] = [] ∧
    (∀ df : List Record, (monthly df).Pairwise fun a b => a.1 < b.1) ∧
    (∀ (df : List Record) (m c : Nat),
        (m, c) ∈ monthly df ↔
          m ∈ df.map (fun r => r.month) ∧ c = (df.map fun r => r.month).count m) ∧
    (∀ (df : List Record) (p : Nat × Nat), p ∈ monthly df → 0 < p.2) := by
  refine ⟨rfl, ?_, ?_, ?_⟩
  · intro df
    exact groupby_size_sorted _
  · intro df m c
    exact mem_groupby_size _ _ _
  · rintro df ⟨m, c⟩ hp
    obtain ⟨hm, rfl⟩ := (mem_groupby_size _ _ _).mp hp
    exact List.count_pos_iff.mpr hm

/-- Claim C3 counterexample: on the empty record list, monthly returns
zero entries, not twelve. -/
theorem monthly_empty_cex :
    monthly ([] : List Record) = [] ∧ (monthly ([] : List Record)).length ≠ 12 :=
  ⟨rfl, by decide⟩

/-- Inserting a pair with orderedInsert countGe preserves the subsequence
at every fixed count, except for prepending the new pair at its own count:
every pair passed over has a strictly larger count. -/
theorem filter_orderedInsert {α : Type} (c : Nat) (a : α × Nat) (l : List (α × Nat)) :
    (List.orderedInsert countGe a l).filter (fun p => p.2 == c) =
      if a.2 == c then a :: l.filter (fun p => p.2 == c)
      else l.filter (fun p => p.2 == c) := by
  induction l with
  | nil => simp [List.orderedInsert, List.filter_cons]
  | cons b t ih =>
    rw [List.orderedInsert]
    by_cases hins : countGe a b
    · rw [if_pos hins]
      simp [List.filter_cons]
    · rw [if_neg hins]
      have hlt : a.2 < b.2 := Nat.lt_of_not_le hins
      simp only [List.filter_cons, ih]
      by_cases hac : a.2 = c <;> by_cases hbc : b.2 = c
      · exfalso
        omega
      · simp [hac, hbc]
      · simp [hac, hbc]
      · simp [hac, hbc]

/-- The stable descending sort by count preserves the relative order of
pairs with equal counts: filtering any fixed count value commutes with the
sort. -/
theorem filter_insertionSort_count {α : Type} (c : Nat) (l : List (α × Nat)) :
    (List.insertionSort countGe l).filter (fun p => p.2 == c) =
      l.filter (fun p => p.2 == c) := by
  induction l with
  | nil => rfl
  | cons a t ih =>
    rw [List.insertionSort, filter_orderedInsert, ih, List.filter_cons]

/-- value_counts is a reordering of the first-appearance counts. -/
theorem value_counts_mem (ks : List String) (k : String) (c : Nat) :
    (k, c) ∈ value_counts ks ↔ (k, c) ∈ countBy ks :=
  (List.perm_insertionSort _ _).mem_iff

/-- Every pair of countBy carries the true multiplicity of its key. -/
theorem countBy_count (ks : List String) (k : String) (c : Nat)
    (h : (k, c) ∈ countBy ks) : c = ks.count k := by
  simp only [countBy, List.mem_map] at h
  obtain ⟨x, _, hxe⟩ := h
  have h1 : x = k := congrArg Prod.fst hxe
  have h2 : ks.count x = c := congrArg Prod.snd hxe
  rw [← h2, h1]

/-- Claim C6: top_countries_n (and top_countries, its n = 10 instance)
lists (country, count) pairs in descending count order with the true
multiplicities; pairs of equal count keep the first-encountered key order
(the filter conjunct states stability against countBy, whose order is
first appearance), and on the counts A:5, B:5, C:3, D:1 with A first the
three leading pairs are exactly (A,5), (B,5), (C,3) with A before B. -/
theorem top_countries_spec :
    (∀ (df : List Record) (n : Nat),
        (top_countries_n df n).Pairwise fun a b => b.2 ≤ a.2) ∧
    (∀ (df : List Record) (k : String) (c : Nat),
        (k, c) ∈ value_counts (countries df) → c = (countries df).count k) ∧
    (∀ (df : List Record) (c : Nat),
        (value_counts (countries df)).filter (fun p => p.2 == c) =
          (countBy (countries df)).filter (fun p => p.2 == c)) ∧
    top_countries_n dsTies 3 = [("A", 5), ("B", 5), ("C", 3)] ∧
    top_countries dsTies = [("A", 5), ("B", 5), ("C", 3), ("D", 1)] := by
  refine ⟨?_, ?_, ?_, by decide, by decide⟩
  · intro df n
    have hs : (value_counts (countries df)).Pairwise countGe :=
      List.sorted_insertionSort countGe (countBy (countries df))
    exact List.Pairwise.sublist (List.take_sublist n _) hs
  · intro df k c hmem
    exact countBy_count _ _ _ ((value_counts_mem _ _ _).mp hmem)
  · intro df c
    exact filter_insertionSort_count c _

/-- The regplot pair count equals the number of records with both
fatality fields present. -/
theorem regplot_pairs_length (df : List Record) :
    (regplot_pairs df).length =
      (df.filter fun r => r.fatalitiesAir.isSome && r.ground.isSome).length := by
  induction df with
  | nil => rfl
  | cons r t ih =>
    simp only [regplot_pairs] at ih ⊢
    rcases hfa : r.fatalitiesAir with _ | a <;> rcases hg : r.ground with _ | g <;>
      simp [List.filterMap_cons, List.filter_cons, hfa, hg, ih]

/-- Claim C8: regplot receives one (air, ground) pair per record in which
both fatality fields are present; a record with either field null is
excluded rather than coerced to 0, so the pair count equals the count of
fully populated records, and each pair reproduces the two stored values;
with 10 records of which 2 have a null Ground value, 8 pairs remain. -/
theorem regplot_pairs_spec :
    (∀ df : List Record, (regplot_pairs df).length =
        (df.filter fun r => r.fatalitiesAir.isSome && r.ground.isSome).length) ∧
    (∀ (df : List Record) (p : Nat × Nat), p ∈ regplot_pairs df →
        ∃ r ∈ df, r.fatalitiesAir = some p.1 ∧ r.ground = some p.2) ∧
    dsNulls.length = 10 ∧ (regplot_pairs dsNulls).length = 8 := by
  refine ⟨regplot_pairs_length, ?_, by decide, by decide⟩
  intro df p hp
  rw [regplot_pairs, List.mem_filterMap] at hp
  obtain ⟨r, hr, hfr⟩ := hp
  refine ⟨r, hr, ?_⟩
  rcases hfa : r.fatalitiesAir with _ | a <;> rcases hg : r.ground with _ | g <;>
    simp only [hfa, hg] at hfr
  · exact Option.noConfusion hfr
  · exact Option.noConfusion hfr
  · exact Option.noConfusion hfr
  · injection hfr with h
    subst h
    exact ⟨rfl, rfl⟩

/-- Claim C9: the yearly-trend, top-countries, fatality-correlation and
monthly-pattern chart aggregations are computed from the full dataset, so
any two sidebar selections over the same dataset yield identical chart
data; the metric cards, computed from filtered_df, do depend on the
selection, witnessed on dsTies by a covering and an empty year range. -/
theorem charts_ignore_selection :
    (∀ (df : List Record) (s1 s2 : FilterSelection),
        (render df s1).chartData = (render df s2).chartData) ∧
    (render dsTies selWide).metrics ≠ (render dsTies selNone).metrics :=
  ⟨fun _ _ _ => rfl, by decide⟩

/-- Claim C10: the Total Fatalities metric sums Fatalities (air) over the
filtered records only, a missing value contributing 0, and never reads the
Ground column: rewriting Ground arbitrarily in every record leaves the
metric unchanged. -/
theorem total_fatalities_air_only (df : List Record) (s : FilterSelection)
    (f : Option Nat → Option Nat) :
    (render df s).metrics.totalFatalities =
      ((filtered_df df s).map fun r => r.fatalitiesAir.getD 0).sum ∧
    (render (df.map (set_ground f)) s).metrics.totalFatalities =
      (render df s).metrics.totalFatalities := by
  constructor
  · rfl
  · show ((filtered_df (df.map (set_ground f)) s).map fun r => r.fatalitiesAir.getD 0).sum =
      ((filtered_df df s).map fun r => r.fatalitiesAir.getD 0).sum
    rw [filtered_df_eq_filter, filtered_df_eq_filter, List.filter_map, List.map_map]
    rfl

end AirCrashes
